import Mathlib

/-
Verification of the Command Gateway of ha-wyoming-realtime-shim:
a shallow embedding of SecurityController (src/security.ts) and of the
HABridge protocol client (ha-bridge), with theorems settling the spec
claims about policy evaluation, auditing and request correlation.
-/

namespace Shim

/-- Entity targets of a Home Assistant service call: the TS union `string | string[]`. -/
inductive EntityId where
  | str (s : String)
  | list (l : List String)
deriving DecidableEq

/-- The service-call `data` record, modelled by the only field the Security
Controller inspects (`data.temperature` in isHighRiskAction). JS numbers are
modelled as integers; JS truthiness of a number (0 is falsy) is made explicit
at the use site. -/
structure ServiceData where
  temperature : Option Int
deriving DecidableEq

/-- HAServiceCallRequest from the types module, plus the optional `confirmed`
flag validateServiceCall reads; an absent `confirmed` is falsy in JS, so it is
modelled as `false`. The unused `target` field is omitted. -/
structure HAServiceCallRequest where
  domain : String
  service : String
  entity_id : Option EntityId
  data : Option ServiceData
  confirmed : Bool
deriving DecidableEq

structure SecurityConfig where
  allowedDomains : List String
  entityWhitelist : List String
  confirmHighRiskActions : Bool
deriving DecidableEq

structure SecurityValidation where
  allowed : Bool
  reason : Option String
  requiresConfirmation : Bool
  confirmationPrompt : Option String
  sanitizedEntityId : Option String
deriving DecidableEq

/-- AuditLogEntry minus its wall-clock timestamp and the optional session
fields this code never writes. The TS `entity_id` field is declared `string`
but receives the raw `serviceCall.entity_id` value through an unchecked
`as string` cast, so it keeps the full union type here. -/
structure AuditLogEntry where
  action : String
  domain : Option String
  service : Option String
  entity_id : Option EntityId
  allowed : Bool
  violation_type : Option String
  confirmed : Option Bool
deriving DecidableEq

/-- JS truthiness of `serviceCall.entity_id`: undefined and the empty string
are falsy, any array (even an empty one) is truthy. -/
def entityIdTruthy : Option EntityId → Bool
  | none => false
  | some (.str s) => s != ""
  | some (.list _) => true

/-- SecurityController.addAuditEntry: push the entry, then keep only the last
1000 entries (`slice(-1000)`). The timestamp added there is not modelled. -/
def addAuditEntry (log : List AuditLogEntry) (entry : AuditLogEntry) : List AuditLogEntry :=
  if (log ++ [entry]).length > 1000 then
    (log ++ [entry]).drop ((log ++ [entry]).length - 1000)
  else log ++ [entry]

/-- SecurityController.getAuditLog: `auditEntries.slice(-limit)` (TS default
limit is 100). In JS `slice(-0)` equals `slice(0)`, the whole array, so a zero
limit returns every retained entry. -/
def getAuditLog (log : List AuditLogEntry) (limit : Nat) : List AuditLogEntry :=
  if limit = 0 then log else log.drop (log.length - limit)

def highRiskDomains : List String :=
  ["alarm_control_panel", "lock", "cover", "climate", "vacuum"]

def highRiskActions : List String :=
  ["turn_off", "unlock", "open_cover", "alarm_disarm"]

/-- SecurityController.isHighRiskAction. The temperature test follows the JS
condition `tempData.temperature && (tempData.temperature < 10 ||
tempData.temperature > 30)`: a temperature of 0 is falsy and short-circuits
the band check. -/
def isHighRiskAction (serviceCall : HAServiceCallRequest) : Bool :=
  if highRiskDomains.contains serviceCall.domain then true
  else if highRiskActions.contains serviceCall.service then true
  else if serviceCall.entity_id = some (.str "all") then true
  else if (match serviceCall.entity_id with
           | some (.list l) => decide (l.length > 5)
           | _ => false) then true
  else if serviceCall.service = "set_temperature" then
    match serviceCall.data with
    | some d =>
      match d.temperature with
      | some t => t != 0 && (t < 10 || t > 30)
      | none => false
    | none => false
  else false

/-- JS `service.replace(UNDERSCORE, SPACE)` with a string pattern replaces only
the first occurrence of the underscore. -/
def replaceUnderscoreOnce : List Char → List Char
  | [] => []
  | c :: rest => if c = '_' then ' ' :: rest else c :: replaceUnderscoreOnce rest

def serviceWords (s : String) : String :=
  String.mk (replaceUnderscoreOnce s.data)

/-- The entityName computation of generateConfirmationPrompt:
`entity_id.replace(CARET-NONDOT-PLUS-DOT regex, EMPTY)` drops everything up to
and including the first dot, but only when at least one non-dot character
precedes it; then every underscore is replaced with a space. -/
def entityShortName (s : String) : String :=
  let cs := s.data
  let afterDot :=
    match cs.findIdx? (fun c => c = '.') with
    | some i => if i = 0 then cs else cs.drop (i + 1)
    | none => cs
  String.mk (afterDot.map (fun c => if c = '_' then ' ' else c))

/-- SecurityController.generateConfirmationPrompt. -/
def generateConfirmationPrompt (serviceCall : HAServiceCallRequest) : String :=
  if serviceCall.entity_id = some (.str "all") then
    "This will " ++ serviceWords serviceCall.service ++ " ALL " ++
      serviceCall.domain ++ " devices. Are you sure?"
  else
    match serviceCall.entity_id with
    | some (.list l) =>
      if l.length > 1 then
        "This will " ++ serviceWords serviceCall.service ++ " " ++
          toString l.length ++ " " ++ serviceCall.domain ++ " devices. Are you sure?"
      else promptSwitch serviceCall "device"
    | some (.str s) =>
      promptSwitch serviceCall (if s != "" then entityShortName s else "device")
    | none => promptSwitch serviceCall "device"
where
  /-- the final switch over the service name; entityName defaults to "device"
  when entity_id is absent, empty, or not a string. -/
  promptSwitch (serviceCall : HAServiceCallRequest) (entityName : String) : String :=
    if serviceCall.service = "unlock" then
      "This will unlock the " ++ entityName ++ ". Are you sure?"
    else if serviceCall.service = "alarm_disarm" then
      "This will disarm the " ++ entityName ++ ". Are you sure?"
    else if serviceCall.service = "open_cover" then
      "This will open the " ++ entityName ++ ". Are you sure?"
    else
      "This will " ++ serviceWords serviceCall.service ++ " the " ++
        entityName ++ ". Are you sure?"

/-- Membership in the character class of the sanitizer regex
[;&|`$(){}[\]\\] (semicolon, ampersand, pipe, backtick, dollar, parentheses,
braces, square brackets, backslash). -/
def dangerousChar (c : Char) : Bool :=
  c = ';' || c = '&' || c = '|' || c = Char.ofNat 96 || c = '$' ||
  c = '(' || c = ')' || c = Char.ofNat 123 || c = Char.ofNat 125 ||
  c = '[' || c = ']' || c = '\\'

/-- SecurityController.sanitizeEntityId: remove every occurrence of the
dangerous characters. -/
def sanitizeEntityId (entityId : String) : String :=
  String.mk (entityId.data.filter (fun c => !dangerousChar c))

/-- The whitelist loop of validateServiceCall: return the first entity not in
the whitelist, scanning in order. -/
def firstDisallowedEntity (whitelist : List String) : List String → Option String
  | [] => none
  | e :: rest =>
    if whitelist.contains e then firstDisallowedEntity whitelist rest else some e

/-- `Array.isArray(entity_id) ? entity_id : [entity_id]` under the truthiness
guard of the whitelist check. -/
def entityIdList : Option EntityId → List String
  | some (.list l) => l
  | some (.str s) => [s]
  | none => []

/-- The whole entity-whitelist gate: it runs only when the whitelist is
non-empty and entity_id is truthy, and yields the first rejected entity. -/
def entityCheckFailure (config : SecurityConfig) (serviceCall : HAServiceCallRequest) :
    Option String :=
  if config.entityWhitelist.length > 0 && entityIdTruthy serviceCall.entity_id then
    firstDisallowedEntity config.entityWhitelist (entityIdList serviceCall.entity_id)
  else none

/-- The tail of the validateServiceCall try block, shared by the
confirmed-high-risk path and the ordinary path: the sanitization step and the
final allow verdict with its audit entry. The only operation here that can
throw is `sanitizeEntityId(serviceCall.entity_id as string)` when entity_id
is actually an array (calling .replace on an array raises a TypeError). -/
def validateFinish (serviceCall : HAServiceCallRequest) (log1 : List AuditLogEntry) :
    Except (String × List AuditLogEntry) (SecurityValidation × List AuditLogEntry) :=
  let sanitized : Except String (Option String) :=
    if entityIdTruthy serviceCall.entity_id then
      match serviceCall.entity_id with
      | some (.str s) => .ok (some (sanitizeEntityId s))
      | some (.list _) => .error "entityId.replace is not a function"
      | none => .ok none
    else .ok none
  match sanitized with
  | .error msg => .error (msg, log1)
  | .ok sanitizedEntityId =>
    .ok ({ allowed := true
           reason := none
           requiresConfirmation := false
           confirmationPrompt := none
           sanitizedEntityId := sanitizedEntityId },
         addAuditEntry log1
           { action := "service_call_validation"
             domain := some serviceCall.domain
             service := some serviceCall.service
             entity_id := serviceCall.entity_id
             allowed := true
             violation_type := none
             confirmed := none })

/-- The try block of SecurityController.validateServiceCall, threading the
audit log explicitly. A thrown error carries the audit log as of the throw,
because addAuditEntry has already mutated the controller state when the
exception propagates. -/
def validateTry (config : SecurityConfig) (serviceCall : HAServiceCallRequest)
    (log : List AuditLogEntry) :
    Except (String × List AuditLogEntry) (SecurityValidation × List AuditLogEntry) :=
  if !(config.allowedDomains.contains serviceCall.domain) then
    .ok ({ allowed := false
           reason := some ("Domain \"" ++ serviceCall.domain ++ "\" not allowed")
           requiresConfirmation := false
           confirmationPrompt := none
           sanitizedEntityId := none },
         addAuditEntry log
           { action := "security_violation"
             domain := some serviceCall.domain
             service := some serviceCall.service
             entity_id := serviceCall.entity_id
             allowed := false
             violation_type := some "domain_not_allowed"
             confirmed := none })
  else
    match entityCheckFailure config serviceCall with
    | some entityId =>
      .ok ({ allowed := false
             reason := some ("Entity \"" ++ entityId ++ "\" not allowed")
             requiresConfirmation := false
             confirmationPrompt := none
             sanitizedEntityId := none },
           addAuditEntry log
             { action := "security_violation"
               domain := some serviceCall.domain
               service := some serviceCall.service
               entity_id := some (.str entityId)
               allowed := false
               violation_type := some "entity_not_allowed"
               confirmed := none })
    | none =>
      let requiresConfirmation := isHighRiskAction serviceCall
      if requiresConfirmation && config.confirmHighRiskActions then
        if !serviceCall.confirmed then
          .ok ({ allowed := false
                 reason := some "Confirmation required for high-risk action"
                 requiresConfirmation := true
                 confirmationPrompt := some (generateConfirmationPrompt serviceCall)
                 sanitizedEntityId := none },
               log)
        else
          validateFinish serviceCall (addAuditEntry log
            { action := "high_risk_confirmed"
              domain := some serviceCall.domain
              service := some serviceCall.service
              entity_id := serviceCall.entity_id
              allowed := true
              violation_type := none
              confirmed := some true })
      else
        validateFinish serviceCall log

/-- SecurityController.validateServiceCall: the try body with its catch.
The catch converts any thrown error into a denial whose reason starts with
"Validation error: " and appends no audit entry of its own. -/
def validateServiceCall (config : SecurityConfig) (serviceCall : HAServiceCallRequest)
    (log : List AuditLogEntry) : SecurityValidation × List AuditLogEntry :=
  match validateTry config serviceCall log with
  | .ok r => r
  | .error (msg, log2) =>
    ({ allowed := false
       reason := some ("Validation error: " ++ msg)
       requiresConfirmation := false
       confirmationPrompt := none
       sanitizedEntityId := none },
     log2)

/-- The wire message built by callService and the other request helpers.
Optional parts mirror the conditional spreads in the TS object literal. -/
structure WireMessage where
  id : Nat
  type : String
  domain : Option String
  service : Option String
  target_entity_id : Option EntityId
  service_data : Option ServiceData
deriving DecidableEq

/-- The mutable state of one HABridge instance. `wsOpen` models
`ws && ws.readyState === OPEN`; `connected` is the flag set on auth_ok and
cleared on close and disconnect. The correlation table keeps the ids of the
Pending Requests; `sentFrames` records the frames actually written to the
socket. -/
structure HABridgeState where
  messageId : Nat
  pendingRequests : List Nat
  connected : Bool
  wsOpen : Bool
  sentFrames : List WireMessage
deriving DecidableEq

/-- HABridge.send: serialize and transmit only when the socket exists and is
OPEN; otherwise do nothing, silently. -/
def send (st : HABridgeState) (message : WireMessage) : HABridgeState :=
  if st.wsOpen then { st with sentFrames := st.sentFrames ++ [message] } else st

/-- HABridge.sendRequest: schedule the timeout (default 5000 ms; time is
modelled by the explicit onRequestTimeout event below), record the Pending
Request, transmit. The promise executor settles nothing synchronously, so the
second component — an immediate rejection message — is always `none` and the
caller suspends. -/
def sendRequest (st : HABridgeState) (message : WireMessage) :
    HABridgeState × Option String :=
  (send { st with pendingRequests := st.pendingRequests ++ [message.id] } message, none)

/-- The setTimeout callback installed by sendRequest: remove the entry from
the correlation table and reject the caller with "Request timeout". -/
def onRequestTimeout (st : HABridgeState) (id : Nat) : HABridgeState × String :=
  ({ st with pendingRequests := st.pendingRequests.erase id }, "Request timeout")

/-- HABridge.handleResponse: when a Pending Request matches the frame id,
clear its timeout, remove it and resolve it (`some (id, success)`); a frame
citing an unknown id falls through with no effect. -/
def handleResponse (st : HABridgeState) (id : Nat) (success : Bool) :
    HABridgeState × Option (Nat × Bool) :=
  if st.pendingRequests.contains id then
    ({ st with pendingRequests := st.pendingRequests.erase id }, some (id, success))
  else (st, none)

/-- The ws close handler registered in connect: set connected to false and
emit a disconnected event. The second component lists the resolutions it
performs on Pending Requests — there are none. -/
def onClose (st : HABridgeState) : HABridgeState × List (Nat × String) :=
  ({ st with connected := false }, [])

/-- HABridge.disconnect: clear the connected flag and drop the socket. -/
def disconnect (st : HABridgeState) : HABridgeState :=
  { st with connected := false, wsOpen := false }

/-- The tail of HABridge.callService after a passed validation (or with no
security controller): allocate the next message id, build the call_service
frame (the target spread is guarded by JS truthiness of entity_id, the
service_data spread by presence of data), and hand it to sendRequest. -/
def callServiceSend (st : HABridgeState) (log : List AuditLogEntry)
    (serviceCall : HAServiceCallRequest) :
    Except String Unit × HABridgeState × List AuditLogEntry :=
  let id := st.messageId
  let st1 := { st with messageId := st.messageId + 1 }
  let message : WireMessage :=
    { id := id
      type := "call_service"
      domain := some serviceCall.domain
      service := some serviceCall.service
      target_entity_id :=
        if entityIdTruthy serviceCall.entity_id then serviceCall.entity_id else none
      service_data := serviceCall.data }
  (.ok (), (sendRequest st1 message).1, log)

/-- HABridge.callService: run the security validation when a controller is
configured and throw its reason when not allowed — before any message id is
allocated or frame sent; otherwise proceed to the wire. -/
def callService (config : Option SecurityConfig) (st : HABridgeState)
    (log : List AuditLogEntry) (serviceCall : HAServiceCallRequest) :
    Except String Unit × HABridgeState × List AuditLogEntry :=
  match config with
  | some c =>
    let r := validateServiceCall c serviceCall log
    if !r.1.allowed then (.error (r.1.reason.getD ""), st, r.2)
    else callServiceSend st r.2 serviceCall
  | none => callServiceSend st log serviceCall

/-- The last `n` elements of a list, in order: JS `slice(-n)` for positive n. -/
def lastN (n : Nat) (l : List AuditLogEntry) : List AuditLogEntry :=
  l.drop (l.length - n)

/-- A sequence of insertions into the audit log. -/
def insertAll (log : List AuditLogEntry) (es : List AuditLogEntry) : List AuditLogEntry :=
  es.foldl addAuditEntry log

/-- The shell metacharacter set named by the specification: semicolon,
ampersand, pipe, backtick, dollar, parentheses, braces, square brackets,
backslash. Stated independently of the sanitizer regex for comparison. -/
def shellMetachars : List Char :=
  [';', '&', '|', Char.ofNat 96, '$', '(', ')', Char.ofNat 123, Char.ofNat 125,
   '[', ']', '\\']

/-! Helper lemmas about the embedded definitions. -/

theorem send_pendingRequests (st : HABridgeState) (m : WireMessage) :
    (send st m).pendingRequests = st.pendingRequests := by
  unfold send; split <;> rfl

theorem send_messageId (st : HABridgeState) (m : WireMessage) :
    (send st m).messageId = st.messageId := by
  unfold send; split <;> rfl

theorem callServiceSend_state (st : HABridgeState) (log : List AuditLogEntry)
    (sc : HAServiceCallRequest) :
    (callServiceSend st log sc).1 = .ok () ∧
    (callServiceSend st log sc).2.1.pendingRequests = st.pendingRequests ++ [st.messageId] ∧
    (callServiceSend st log sc).2.1.messageId = st.messageId + 1 ∧
    (callServiceSend st log sc).2.2 = log := by
  refine ⟨rfl, ?_, ?_, rfl⟩ <;>
    simp [callServiceSend, sendRequest, send_pendingRequests, send_messageId]

theorem append_left_ne_empty (a b : String) (h : a ≠ "") : a ++ b ≠ "" := by
  intro he
  apply h
  have hl := congrArg String.length he
  rw [String.length_append] at hl
  have h0 : String.length "" = 0 := rfl
  rw [h0] at hl
  have ha : a.length = 0 := by omega
  cases a with
  | mk dataA =>
    cases dataA with
    | nil => rfl
    | cons c cs => simp [String.length] at ha

theorem promptSwitch_ne_empty (sc : HAServiceCallRequest) (en : String) :
    generateConfirmationPrompt.promptSwitch sc en ≠ "" := by
  unfold generateConfirmationPrompt.promptSwitch
  split_ifs
  all_goals repeat apply append_left_ne_empty
  all_goals decide

theorem prompt_ne_empty (sc : HAServiceCallRequest) :
    generateConfirmationPrompt sc ≠ "" := by
  unfold generateConfirmationPrompt
  split_ifs with h1
  · repeat apply append_left_ne_empty
    decide
  · cases hei : sc.entity_id with
    | none => exact promptSwitch_ne_empty sc "device"
    | some e =>
      cases e with
      | str s => exact promptSwitch_ne_empty sc _
      | list l =>
        dsimp only
        split_ifs with h2
        · repeat apply append_left_ne_empty
          decide
        · exact promptSwitch_ne_empty sc "device"

theorem validateTry_domain_deny (cfg : SecurityConfig) (sc : HAServiceCallRequest)
    (log : List AuditLogEntry) (hd : sc.domain ∉ cfg.allowedDomains) :
    validateTry cfg sc log =
      .ok ({ allowed := false
             reason := some ("Domain \"" ++ sc.domain ++ "\" not allowed")
             requiresConfirmation := false
             confirmationPrompt := none
             sanitizedEntityId := none },
           addAuditEntry log
             { action := "security_violation"
               domain := some sc.domain
               service := some sc.service
               entity_id := sc.entity_id
               allowed := false
               violation_type := some "domain_not_allowed"
               confirmed := none }) := by
  unfold validateTry
  simp [hd]

theorem validateTry_entity_deny (cfg : SecurityConfig) (sc : HAServiceCallRequest)
    (log : List AuditLogEntry) (eid : String)
    (hd : sc.domain ∈ cfg.allowedDomains)
    (he : entityCheckFailure cfg sc = some eid) :
    validateTry cfg sc log =
      .ok ({ allowed := false
             reason := some ("Entity \"" ++ eid ++ "\" not allowed")
             requiresConfirmation := false
             confirmationPrompt := none
             sanitizedEntityId := none },
           addAuditEntry log
             { action := "security_violation"
               domain := some sc.domain
               service := some sc.service
               entity_id := some (.str eid)
               allowed := false
               violation_type := some "entity_not_allowed"
               confirmed := none }) := by
  unfold validateTry
  simp [hd, he]

theorem validateTry_confirm_required (cfg : SecurityConfig) (sc : HAServiceCallRequest)
    (log : List AuditLogEntry)
    (hd : sc.domain ∈ cfg.allowedDomains)
    (he : entityCheckFailure cfg sc = none)
    (hr : isHighRiskAction sc = true)
    (hcc : cfg.confirmHighRiskActions = true)
    (hc : sc.confirmed = false) :
    validateTry cfg sc log =
      .ok ({ allowed := false
             reason := some "Confirmation required for high-risk action"
             requiresConfirmation := true
             confirmationPrompt := some (generateConfirmationPrompt sc)
             sanitizedEntityId := none },
           log) := by
  unfold validateTry
  simp [hd, he, hr, hcc, hc]

theorem validateTry_pass_confirmed (cfg : SecurityConfig) (sc : HAServiceCallRequest)
    (log : List AuditLogEntry)
    (hd : sc.domain ∈ cfg.allowedDomains)
    (he : entityCheckFailure cfg sc = none)
    (hr : isHighRiskAction sc = true)
    (hcc : cfg.confirmHighRiskActions = true)
    (hc : sc.confirmed = true) :
    validateTry cfg sc log =
      validateFinish sc (addAuditEntry log
        { action := "high_risk_confirmed"
          domain := some sc.domain
          service := some sc.service
          entity_id := sc.entity_id
          allowed := true
          violation_type := none
          confirmed := some true }) := by
  unfold validateTry
  simp [hd, he, hr, hcc, hc]

theorem validateTry_pass_normal (cfg : SecurityConfig) (sc : HAServiceCallRequest)
    (log : List AuditLogEntry)
    (hd : sc.domain ∈ cfg.allowedDomains)
    (he : entityCheckFailure cfg sc = none)
    (hg : isHighRiskAction sc = false ∨ cfg.confirmHighRiskActions = false) :
    validateTry cfg sc log = validateFinish sc log := by
  unfold validateTry
  rcases hg with hg | hg <;> simp [hd, he, hg]

theorem validateFinish_ok_of_not_list (sc : HAServiceCallRequest) (log1 : List AuditLogEntry)
    (h : sc.entity_id = none ∨ ∃ s, sc.entity_id = some (.str s)) :
    ∃ sid, validateFinish sc log1 =
      .ok ({ allowed := true
             reason := none
             requiresConfirmation := false
             confirmationPrompt := none
             sanitizedEntityId := sid },
           addAuditEntry log1
             { action := "service_call_validation"
               domain := some sc.domain
               service := some sc.service
               entity_id := sc.entity_id
               allowed := true
               violation_type := none
               confirmed := none }) := by
  rcases h with h | ⟨s, h⟩
  · exact ⟨none, by unfold validateFinish; simp [h, entityIdTruthy]⟩
  · by_cases hs : s = ""
    · exact ⟨none, by unfold validateFinish; simp [h, hs, entityIdTruthy]⟩
    · exact ⟨some (sanitizeEntityId s), by unfold validateFinish; simp [h, hs, entityIdTruthy]⟩

theorem validateFinish_list (sc : HAServiceCallRequest) (log1 : List AuditLogEntry)
    (l : List String) (h : sc.entity_id = some (.list l)) :
    validateFinish sc log1 = .error ("entityId.replace is not a function", log1) := by
  unfold validateFinish
  simp [h, entityIdTruthy]

theorem dangerousChar_eq_contains (c : Char) :
    dangerousChar c = shellMetachars.contains c := by
  rw [Bool.eq_iff_iff]
  simp [dangerousChar, shellMetachars]
  tauto

theorem sanitizeEntityId_spec (s : String) :
    (sanitizeEntityId s).data = s.data.filter (fun c => !(shellMetachars.contains c)) := by
  unfold sanitizeEntityId
  refine List.filter_congr ?_
  intro a _
  rw [dangerousChar_eq_contains]

theorem addAuditEntry_length_le (log : List AuditLogEntry) (e : AuditLogEntry) :
    (addAuditEntry log e).length ≤ 1000 := by
  unfold addAuditEntry
  split_ifs with h
  · rw [List.length_drop]
    omega
  · simp at h ⊢
    omega

theorem addAuditEntry_eq_lastN (log : List AuditLogEntry) (e : AuditLogEntry) :
    addAuditEntry log e = lastN 1000 (log ++ [e]) := by
  unfold addAuditEntry lastN
  split_ifs with h
  · rfl
  · have h0 : (log ++ [e]).length - 1000 = 0 := by omega
    rw [h0, List.drop_zero]

theorem lastN_absorb (k : Nat) (l m : List AuditLogEntry) :
    lastN k (lastN k l ++ m) = lastN k (l ++ m) := by
  unfold lastN
  by_cases h : l.length ≤ k
  · have h0 : l.length - k = 0 := by omega
    rw [h0, List.drop_zero]
  · have hA : (l.drop (l.length - k)).length = k := by
      rw [List.length_drop]; omega
    have h1 : (l.drop (l.length - k) ++ m).length - k = m.length := by
      rw [List.length_append, hA]; omega
    have h2 : (l ++ m).length - k = (l.length - k) + m.length := by
      rw [List.length_append]; omega
    rw [h1, h2, ← List.drop_drop, List.drop_append_of_le_length (Nat.sub_le _ _)]

theorem insertAll_eq_lastN (es : List AuditLogEntry) (log : List AuditLogEntry)
    (h : log.length ≤ 1000) : insertAll log es = lastN 1000 (log ++ es) := by
  induction es generalizing log with
  | nil =>
    unfold insertAll lastN
    simp only [List.foldl_nil, List.append_nil]
    have h0 : log.length - 1000 = 0 := by omega
    rw [h0, List.drop_zero]
  | cons e es ih =>
    have hstep : insertAll log (e :: es) = insertAll (addAuditEntry log e) es := rfl
    rw [hstep, ih (addAuditEntry log e) (addAuditEntry_length_le log e),
        addAuditEntry_eq_lastN, lastN_absorb]
    congr 1
    simp

theorem validateServiceCall_finish_shape (cfg : SecurityConfig)
    (sc : HAServiceCallRequest) (log log1 : List AuditLogEntry)
    (htry : validateTry cfg sc log = validateFinish sc log1) :
    (validateServiceCall cfg sc log).1.requiresConfirmation = false ∧
    ((validateServiceCall cfg sc log).1.allowed = true →
      ∃ sid, validateServiceCall cfg sc log =
        ({ allowed := true, reason := none, requiresConfirmation := false,
           confirmationPrompt := none, sanitizedEntityId := sid },
         addAuditEntry log1
           { action := "service_call_validation"
             domain := some sc.domain
             service := some sc.service
             entity_id := sc.entity_id
             allowed := true
             violation_type := none
             confirmed := none })) ∧
    ((validateServiceCall cfg sc log).1.allowed = false →
      validateServiceCall cfg sc log =
        ({ allowed := false
           reason := some ("Validation error: " ++ "entityId.replace is not a function")
           requiresConfirmation := false
           confirmationPrompt := none
           sanitizedEntityId := none },
         log1)) := by
  rcases hei : sc.entity_id with _ | e
  · obtain ⟨sid, hfin⟩ := validateFinish_ok_of_not_list sc log1 (Or.inl hei)
    have hv : validateServiceCall cfg sc log =
        ({ allowed := true, reason := none, requiresConfirmation := false,
           confirmationPrompt := none, sanitizedEntityId := sid },
         addAuditEntry log1
           { action := "service_call_validation"
             domain := some sc.domain
             service := some sc.service
             entity_id := sc.entity_id
             allowed := true
             violation_type := none
             confirmed := none }) := by
      simp only [validateServiceCall, htry, hfin]
    rw [hei] at hv
    refine ⟨by simp [hv], fun _ => ⟨sid, hv⟩, fun ha => ?_⟩
    · rw [hv] at ha; simp at ha
  · cases e with
    | str s =>
      obtain ⟨sid, hfin⟩ := validateFinish_ok_of_not_list sc log1 (Or.inr ⟨s, hei⟩)
      have hv : validateServiceCall cfg sc log =
          ({ allowed := true, reason := none, requiresConfirmation := false,
             confirmationPrompt := none, sanitizedEntityId := sid },
           addAuditEntry log1
             { action := "service_call_validation"
               domain := some sc.domain
               service := some sc.service
               entity_id := sc.entity_id
               allowed := true
               violation_type := none
               confirmed := none }) := by
        simp only [validateServiceCall, htry, hfin]
      rw [hei] at hv
      refine ⟨by simp [hv], fun _ => ⟨sid, hv⟩, fun ha => ?_⟩
      · rw [hv] at ha; simp at ha
    | list l =>
      have hfin := validateFinish_list sc log1 l hei
      have hv : validateServiceCall cfg sc log =
          ({ allowed := false
             reason := some ("Validation error: " ++ "entityId.replace is not a function")
             requiresConfirmation := false
             confirmationPrompt := none
             sanitizedEntityId := none },
           log1) := by
        simp only [validateServiceCall, htry, hfin]
      refine ⟨by simp [hv], fun ha => ?_, fun _ => hv⟩
      · rw [hv] at ha; simp at ha

/-! Claim theorems. -/

/-- C1: for every Command whose domain is not in allowedDomains, the policy
evaluation returns a verdict with allowed = false and a domain-not-allowed
reason, exactly one audit entry tagged domain_not_allowed is appended, and
callService throws before the request path: no message id is allocated, no
Pending Request is registered and no frame is sent (the bridge state is
returned unchanged). -/
theorem C1_domain_not_allowed_denies (cfg : SecurityConfig) (st : HABridgeState)
    (log : List AuditLogEntry) (sc : HAServiceCallRequest)
    (h : sc.domain ∉ cfg.allowedDomains) :
    (validateServiceCall cfg sc log).1.allowed = false ∧
    (validateServiceCall cfg sc log).1.reason =
      some ("Domain \"" ++ sc.domain ++ "\" not allowed") ∧
    (validateServiceCall cfg sc log).2 =
      addAuditEntry log
        { action := "security_violation"
          domain := some sc.domain
          service := some sc.service
          entity_id := sc.entity_id
          allowed := false
          violation_type := some "domain_not_allowed"
          confirmed := none } ∧
    callService (some cfg) st log sc =
      (.error ("Domain \"" ++ sc.domain ++ "\" not allowed"), st,
        addAuditEntry log
          { action := "security_violation"
            domain := some sc.domain
            service := some sc.service
            entity_id := sc.entity_id
            allowed := false
            violation_type := some "domain_not_allowed"
            confirmed := none }) := by
  have hval := validateTry_domain_deny cfg sc log h
  refine ⟨?_, ?_, ?_, ?_⟩
  · simp [validateServiceCall, hval]
  · simp [validateServiceCall, hval]
  · simp [validateServiceCall, hval]
  · simp [callService, validateServiceCall, hval]

theorem C1_witness :
    ("switch" ∉ (["light"] : List String)) ∧
    callService (some ⟨["light"], [], true⟩) ⟨1, [], true, true, []⟩ []
        ⟨"switch", "turn_on", none, none, false⟩ =
      (.error ("Domain \"" ++ "switch" ++ "\" not allowed"), ⟨1, [], true, true, []⟩,
        addAuditEntry []
          ⟨"security_violation", some "switch", some "turn_on", none, false,
            some "domain_not_allowed", none⟩) :=
  ⟨by decide,
   (C1_domain_not_allowed_denies ⟨["light"], [], true⟩ ⟨1, [], true, true, []⟩ []
     ⟨"switch", "turn_on", none, none, false⟩ (by decide)).2.2.2⟩

/-- C4: the claim states a set_temperature Command with a numeric temperature
outside 10 to 30 is high-risk for every out-of-band value, including 0; but
the guard `tempData.temperature && ...` treats 0 as falsy, so a temperature
of exactly 0 is not classified high-risk although 0 lies outside the band. -/
theorem C4_temperature_zero_not_high_risk :
    isHighRiskAction
      { domain := "light", service := "set_temperature", entity_id := none,
        data := some { temperature := some 0 }, confirmed := false } = false ∧
    ((0 : Int) < 10 ∨ (0 : Int) > 30) ∧
    isHighRiskAction
      { domain := "light", service := "set_temperature", entity_id := none,
        data := some { temperature := some 5 }, confirmed := false } = true := by
  refine ⟨rfl, by decide, rfl⟩

/-- C6 counterexample: in the state before Ready (socket not OPEN, not
authenticated), sendRequest does not fail fast with any error: it registers
the Pending Request, silently drops the frame, returns no synchronous
rejection, and the caller is only ever resolved by the timeout with
"Request timeout" — not a connection-not-ready error. -/
theorem C6_counterexample :
    (sendRequest ⟨1, [], false, false, []⟩
        ⟨7, "call_service", some "light", some "turn_on", none, none⟩).2 = none ∧
    (sendRequest ⟨1, [], false, false, []⟩
        ⟨7, "call_service", some "light", some "turn_on", none, none⟩).1.pendingRequests =
      [7] ∧
    (sendRequest ⟨1, [], false, false, []⟩
        ⟨7, "call_service", some "light", some "turn_on", none, none⟩).1.sentFrames = [] ∧
    (onRequestTimeout
        (sendRequest ⟨1, [], false, false, []⟩
          ⟨7, "call_service", some "light", some "turn_on", none, none⟩).1 7).2 =
      "Request timeout" :=
  ⟨rfl, rfl, rfl, rfl⟩

/-- C6 amended: a request issued while the socket is not OPEN is not rejected
fast; the Pending Request is registered, the frame is silently dropped, no
synchronous error is produced, and the caller suspends until the timeout
callback rejects it with "Request timeout". -/
theorem C6_no_fast_fail (st : HABridgeState) (m : WireMessage)
    (h : st.wsOpen = false) :
    sendRequest st m =
      ({ st with pendingRequests := st.pendingRequests ++ [m.id] }, none) ∧
    (sendRequest st m).1.sentFrames = st.sentFrames ∧
    (onRequestTimeout (sendRequest st m).1 m.id).2 = "Request timeout" := by
  refine ⟨?_, ?_, rfl⟩ <;> simp [sendRequest, send, h]

theorem C6_witness :
    ((⟨1, [], false, false, []⟩ : HABridgeState).wsOpen = false) ∧
    sendRequest ⟨1, [], false, false, []⟩ ⟨3, "get_states", none, none, none, none⟩ =
      (⟨1, [3], false, false, []⟩, none) :=
  ⟨rfl,
   (C6_no_fast_fail ⟨1, [], false, false, []⟩
     ⟨3, "get_states", none, none, none, none⟩ rfl).1⟩

/-- C7: a response frame citing a requestId with no Pending Request has no
effect on the state and resolves nothing; the timeout callback rejects with
"Request timeout" and removes the entry from the correlation table, after
which a late response for that id is ignored. -/
theorem C7_timeout_then_late_response_ignored (st : HABridgeState) (id : Nat)
    (b : Bool) :
    (id ∉ st.pendingRequests → handleResponse st id b = (st, none)) ∧
    (onRequestTimeout st id).2 = "Request timeout" ∧
    (onRequestTimeout st id).1.pendingRequests = st.pendingRequests.erase id ∧
    (st.pendingRequests.Nodup →
      id ∉ (onRequestTimeout st id).1.pendingRequests ∧
      handleResponse (onRequestTimeout st id).1 id b =
        ((onRequestTimeout st id).1, none)) := by
  refine ⟨fun h => ?_, rfl, rfl, fun hnd => ?_⟩
  · simp [handleResponse, h]
  · have h2 : id ∉ st.pendingRequests.erase id := hnd.not_mem_erase
    exact ⟨h2, by simp [handleResponse, onRequestTimeout, h2]⟩

theorem C7_witness :
    (9 ∉ ([5] : List Nat)) ∧ ([5] : List Nat).Nodup ∧
    handleResponse ⟨2, [5], true, true, []⟩ 9 true = (⟨2, [5], true, true, []⟩, none) ∧
    handleResponse (onRequestTimeout ⟨2, [5], true, true, []⟩ 5).1 5 true =
      ((onRequestTimeout ⟨2, [5], true, true, []⟩ 5).1, none) :=
  ⟨by decide, by decide,
   (C7_timeout_then_late_response_ignored ⟨2, [5], true, true, []⟩ 9 true).1 (by decide),
   ((C7_timeout_then_late_response_ignored ⟨2, [5], true, true, []⟩ 5 true).2.2.2
     (by decide)).2⟩

/-- C8 counterexample: with one outstanding request, the close handler leaves
the Pending Request in the correlation table (it is not cleared) and performs
no connection-lost resolutions, contradicting the claim. -/
theorem C8_counterexample :
    (onClose ⟨2, [1], true, true, []⟩).1.pendingRequests = [1] ∧
    (onClose ⟨2, [1], true, true, []⟩).1.pendingRequests ≠ [] ∧
    (onClose ⟨2, [1], true, true, []⟩).2 = [] :=
  ⟨rfl, by decide, rfl⟩

/-- C8 amended: on transport close the bridge only clears its connected flag
and emits a disconnected event; no Pending Request is resolved with a
connection-lost failure and the correlation table is left untouched (each
entry later resolves through its own timeout). disconnect likewise leaves the
table untouched. -/
theorem C8_close_keeps_pending (st : HABridgeState) :
    onClose st = ({ st with connected := false }, []) ∧
    (onClose st).1.pendingRequests = st.pendingRequests ∧
    (disconnect st).pendingRequests = st.pendingRequests :=
  ⟨rfl, rfl, rfl⟩

/-- C2 counterexample: a high-risk Command whose target is a list passes the
first phase (confirmation required), but resubmitting it with confirmed = true
does not yield an allowed verdict: sanitization throws on the array and the
call returns allowed = false with a validation-error reason. -/
theorem C2_counterexample :
    (validateServiceCall ⟨["lock"], [], true⟩
        ⟨"lock", "lock", some (.list ["lock.a", "lock.b"]), none, false⟩
        []).1.requiresConfirmation = true ∧
    (validateServiceCall ⟨["lock"], [], true⟩
        ⟨"lock", "lock", some (.list ["lock.a", "lock.b"]), none, true⟩
        []).1.allowed = false ∧
    (validateServiceCall ⟨["lock"], [], true⟩
        ⟨"lock", "lock", some (.list ["lock.a", "lock.b"]), none, true⟩
        []).1.reason =
      some "Validation error: entityId.replace is not a function" :=
  ⟨rfl, rfl, rfl⟩

/-- C2 amended: for every Command that passes the domain and entity checks, is
high-risk, is submitted with confirmed = false while confirmHighRiskActions is
set, and whose targetId is a single string or absent (not a list), dispatch
returns a confirmation-required verdict with a non-empty prompt and no
execution occurs; resubmitting the identical Command with confirmed = true
yields an allowed verdict and proceeds to execution (a message id is allocated
and the Pending Request registered). -/
theorem C2_confirmation_flow (cfg : SecurityConfig) (st : HABridgeState)
    (log : List AuditLogEntry) (sc : HAServiceCallRequest)
    (hdom : sc.domain ∈ cfg.allowedDomains)
    (hent : entityCheckFailure cfg sc = none)
    (hrisk : isHighRiskAction sc = true)
    (hcfg : cfg.confirmHighRiskActions = true)
    (hnc : sc.confirmed = false)
    (hsid : sc.entity_id = none ∨ ∃ s, sc.entity_id = some (.str s)) :
    (validateServiceCall cfg sc log).1.allowed = false ∧
    (validateServiceCall cfg sc log).1.requiresConfirmation = true ∧
    (validateServiceCall cfg sc log).1.confirmationPrompt =
      some (generateConfirmationPrompt sc) ∧
    generateConfirmationPrompt sc ≠ "" ∧
    callService (some cfg) st log sc =
      (.error "Confirmation required for high-risk action", st, log) ∧
    (validateServiceCall cfg { sc with confirmed := true } log).1.allowed = true ∧
    (callService (some cfg) st log { sc with confirmed := true }).1 = .ok () ∧
    (callService (some cfg) st log { sc with confirmed := true }).2.1.pendingRequests =
      st.pendingRequests ++ [st.messageId] ∧
    (callService (some cfg) st log { sc with confirmed := true }).2.1.messageId =
      st.messageId + 1 := by
  have h1 := validateTry_confirm_required cfg sc log hdom hent hrisk hcfg hnc
  have h2 := validateTry_pass_confirmed cfg { sc with confirmed := true } log
    hdom hent hrisk hcfg rfl
  obtain ⟨sid, h3⟩ := validateFinish_ok_of_not_list { sc with confirmed := true }
    (addAuditEntry log
      { action := "high_risk_confirmed"
        domain := some sc.domain
        service := some sc.service
        entity_id := sc.entity_id
        allowed := true
        violation_type := none
        confirmed := some true }) hsid
  rw [h3] at h2
  refine ⟨?_, ?_, ?_, prompt_ne_empty sc, ?_, ?_, ?_, ?_, ?_⟩
  · simp [validateServiceCall, h1]
  · simp [validateServiceCall, h1]
  · simp [validateServiceCall, h1]
  · simp [callService, validateServiceCall, h1]
  · simp [validateServiceCall, h2]
  · simp [callService, validateServiceCall, h2,
      (callServiceSend_state st _ { sc with confirmed := true }).1]
  · simp [callService, validateServiceCall, h2,
      (callServiceSend_state st _ { sc with confirmed := true }).2.1]
  · simp [callService, validateServiceCall, h2,
      (callServiceSend_state st _ { sc with confirmed := true }).2.2.1]

theorem C2_witness :
    ("lock" ∈ (["lock"] : List String)) ∧
    isHighRiskAction ⟨"lock", "unlock", some (.str "lock.front_door"), none, false⟩ =
      true ∧
    (validateServiceCall ⟨["lock"], [], true⟩
        ⟨"lock", "unlock", some (.str "lock.front_door"), none, false⟩
        []).1.requiresConfirmation = true ∧
    (validateServiceCall ⟨["lock"], [], true⟩
        ⟨"lock", "unlock", some (.str "lock.front_door"), none, true⟩
        []).1.allowed = true := by
  have h := C2_confirmation_flow ⟨["lock"], [], true⟩ ⟨1, [], true, true, []⟩ []
    ⟨"lock", "unlock", some (.str "lock.front_door"), none, false⟩
    (by decide) rfl (by decide) rfl rfl (Or.inr ⟨"lock.front_door", rfl⟩)
  exact ⟨by decide, by decide, h.2.1, h.2.2.2.2.2.1⟩

/-- C3 counterexample: for an allowed, high-risk Command submitted without
confirmation, validateServiceCall returns the confirmation-required verdict
with the audit log unchanged — no audit entry records that verdict before it
is returned, contradicting the claim for the confirmation-required case. -/
theorem C3_counterexample :
    (validateServiceCall ⟨["lock"], [], true⟩
        ⟨"lock", "lock", none, none, false⟩ []).1.requiresConfirmation = true ∧
    (validateServiceCall ⟨["lock"], [], true⟩
        ⟨"lock", "lock", none, none, false⟩ []).2 = ([] : List AuditLogEntry) :=
  ⟨rfl, rfl⟩

/-- C3 amended: audit entries are appended before returning on the allow
verdict (a service_call_validation entry, preceded by a high_risk_confirmed
entry when a confirmed high-risk command passed the gate) and on the domain
and entity denial verdicts (exactly one security_violation entry); but the
confirmation-required verdict returns with no entry appended, and the
internal-error denial path appends none either (its reason starts with
"Validation error: "). -/
theorem C3_audit_per_verdict (cfg : SecurityConfig) (sc : HAServiceCallRequest)
    (log : List AuditLogEntry) :
    ((validateServiceCall cfg sc log).1.requiresConfirmation = true →
      (validateServiceCall cfg sc log).2 = log) ∧
    ((validateServiceCall cfg sc log).1.allowed = false →
      (validateServiceCall cfg sc log).1.requiresConfirmation = false →
      (∃ e, e.action = "security_violation" ∧ e.allowed = false ∧
        (validateServiceCall cfg sc log).2 = addAuditEntry log e) ∨
      (∃ msg, (validateServiceCall cfg sc log).1.reason =
        some ("Validation error: " ++ msg))) ∧
    ((validateServiceCall cfg sc log).1.allowed = true →
      ∃ e, e.action = "service_call_validation" ∧ e.allowed = true ∧
        ((validateServiceCall cfg sc log).2 = addAuditEntry log e ∨
         ∃ e1, e1.action = "high_risk_confirmed" ∧
           (validateServiceCall cfg sc log).2 =
             addAuditEntry (addAuditEntry log e1) e)) := by
  by_cases hd : sc.domain ∈ cfg.allowedDomains
  · cases he : entityCheckFailure cfg sc with
    | some eid =>
      have hv : validateServiceCall cfg sc log =
          ({ allowed := false
             reason := some ("Entity \"" ++ eid ++ "\" not allowed")
             requiresConfirmation := false
             confirmationPrompt := none
             sanitizedEntityId := none },
           addAuditEntry log
             { action := "security_violation"
               domain := some sc.domain
               service := some sc.service
               entity_id := some (.str eid)
               allowed := false
               violation_type := some "entity_not_allowed"
               confirmed := none }) := by
        simp only [validateServiceCall, validateTry_entity_deny cfg sc log eid hd he]
      refine ⟨fun hq => ?_, fun _ _ => ?_, fun ha => ?_⟩
      · rw [hv] at hq; simp at hq
      · exact Or.inl ⟨_, rfl, rfl, by rw [hv]⟩
      · rw [hv] at ha; simp at ha
    | none =>
      by_cases hr : (isHighRiskAction sc && cfg.confirmHighRiskActions) = true
      · rw [Bool.and_eq_true] at hr
        obtain ⟨hr1, hr2⟩ := hr
        by_cases hc : sc.confirmed = true
        · have htry := validateTry_pass_confirmed cfg sc log hd he hr1 hr2 hc
          obtain ⟨hrc, hok, herr⟩ :=
            validateServiceCall_finish_shape cfg sc log _ htry
          refine ⟨fun hq => ?_, fun ha _ => ?_, fun ha => ?_⟩
          · rw [hrc] at hq; simp at hq
          · exact Or.inr ⟨"entityId.replace is not a function", by rw [herr ha]⟩
          · obtain ⟨sid, hv⟩ := hok ha
            exact ⟨_, rfl, rfl, Or.inr ⟨_, rfl, by rw [hv]⟩⟩
        · have hc0 : sc.confirmed = false := by
            cases hcb : sc.confirmed
            · rfl
            · exact absurd hcb hc
          have htry := validateTry_confirm_required cfg sc log hd he hr1 hr2 hc0
          have hv : validateServiceCall cfg sc log =
              ({ allowed := false
                 reason := some "Confirmation required for high-risk action"
                 requiresConfirmation := true
                 confirmationPrompt := some (generateConfirmationPrompt sc)
                 sanitizedEntityId := none },
               log) := by
            simp only [validateServiceCall, htry]
          refine ⟨fun _ => by rw [hv], fun _ hq => ?_, fun ha => ?_⟩
          · rw [hv] at hq; simp at hq
          · rw [hv] at ha; simp at ha
      · have hg0 : (isHighRiskAction sc && cfg.confirmHighRiskActions) = false := by
          simpa using hr
        have hg : isHighRiskAction sc = false ∨ cfg.confirmHighRiskActions = false := by
          cases hA : isHighRiskAction sc
          · exact Or.inl rfl
          · right
            rw [hA] at hg0
            simpa using hg0
        have htry := validateTry_pass_normal cfg sc log hd he hg
        obtain ⟨hrc, hok, herr⟩ := validateServiceCall_finish_shape cfg sc log _ htry
        refine ⟨fun hq => ?_, fun ha _ => ?_, fun ha => ?_⟩
        · rw [hrc] at hq; simp at hq
        · exact Or.inr ⟨"entityId.replace is not a function", by rw [herr ha]⟩
        · obtain ⟨sid, hv⟩ := hok ha
          exact ⟨_, rfl, rfl, Or.inl (by rw [hv])⟩
  · have hv : validateServiceCall cfg sc log =
        ({ allowed := false
           reason := some ("Domain \"" ++ sc.domain ++ "\" not allowed")
           requiresConfirmation := false
           confirmationPrompt := none
           sanitizedEntityId := none },
         addAuditEntry log
           { action := "security_violation"
             domain := some sc.domain
             service := some sc.service
             entity_id := sc.entity_id
             allowed := false
             violation_type := some "domain_not_allowed"
             confirmed := none }) := by
      simp only [validateServiceCall, validateTry_domain_deny cfg sc log hd]
    refine ⟨fun hq => ?_, fun _ _ => ?_, fun ha => ?_⟩
    · rw [hv] at hq; simp at hq
    · exact Or.inl ⟨_, rfl, rfl, by rw [hv]⟩
    · rw [hv] at ha; simp at ha

theorem C3_witness :
    (validateServiceCall ⟨["light"], [], false⟩
        ⟨"light", "turn_on", some (.str "light.kitchen"), none, false⟩
        []).1.allowed = true ∧
    (∃ e, e.action = "service_call_validation" ∧ e.allowed = true ∧
      ((validateServiceCall ⟨["light"], [], false⟩
          ⟨"light", "turn_on", some (.str "light.kitchen"), none, false⟩
          []).2 = addAuditEntry [] e ∨
       ∃ e1, e1.action = "high_risk_confirmed" ∧
         (validateServiceCall ⟨["light"], [], false⟩
             ⟨"light", "turn_on", some (.str "light.kitchen"), none, false⟩
             []).2 = addAuditEntry (addAuditEntry [] e1) e)) :=
  ⟨rfl,
   (C3_audit_per_verdict ⟨["light"], [], false⟩
     ⟨"light", "turn_on", some (.str "light.kitchen"), none, false⟩ []).2.2 rfl⟩

/-- C5 counterexample: a Command that passes every gate but whose targetId is
a list does not come back allowed with a sanitized list: sanitization throws
on the array (`entity_id as string`), the catch converts it, and the verdict
is allowed = false with a validation-error reason and no sanitized target. -/
theorem C5_counterexample :
    (validateServiceCall ⟨["light"], [], false⟩
        ⟨"light", "turn_on", some (.list ["light.a"]), none, false⟩
        []).1.allowed = false ∧
    (validateServiceCall ⟨["light"], [], false⟩
        ⟨"light", "turn_on", some (.list ["light.a"]), none, false⟩
        []).1.sanitizedEntityId = none ∧
    (validateServiceCall ⟨["light"], [], false⟩
        ⟨"light", "turn_on", some (.list ["light.a"]), none, false⟩
        []).1.reason =
      some "Validation error: entityId.replace is not a function" :=
  ⟨rfl, rfl, rfl⟩

/-- C5 amended: for every Command passing the domain check, entity check and
the confirmation gate whose targetId is a single string, the returned verdict
has allowed = true and its sanitized target equals the targetId with every
occurrence of the shell metacharacters removed (none when the string is
empty, which is falsy and skips sanitization); a list targetId instead makes
sanitization throw into the catch. -/
theorem validateFinish_str_value (sc : HAServiceCallRequest)
    (log1 : List AuditLogEntry) (s : String)
    (hsid : sc.entity_id = some (.str s)) :
    validateFinish sc log1 =
      .ok ({ allowed := true
             reason := none
             requiresConfirmation := false
             confirmationPrompt := none
             sanitizedEntityId := if s != "" then some (sanitizeEntityId s) else none },
           addAuditEntry log1
             { action := "service_call_validation"
               domain := some sc.domain
               service := some sc.service
               entity_id := sc.entity_id
               allowed := true
               violation_type := none
               confirmed := none }) := by
  unfold validateFinish
  by_cases hs : s = "" <;> simp [hsid, hs, entityIdTruthy]

theorem C5_sanitized_target (cfg : SecurityConfig) (sc : HAServiceCallRequest)
    (log : List AuditLogEntry) (s : String)
    (hdom : sc.domain ∈ cfg.allowedDomains)
    (hent : entityCheckFailure cfg sc = none)
    (hgate : (isHighRiskAction sc && cfg.confirmHighRiskActions && !sc.confirmed) = false)
    (hsid : sc.entity_id = some (.str s)) :
    (validateServiceCall cfg sc log).1.allowed = true ∧
    (validateServiceCall cfg sc log).1.sanitizedEntityId =
      (if s != "" then some (sanitizeEntityId s) else none) ∧
    (sanitizeEntityId s).data =
      s.data.filter (fun c => !(shellMetachars.contains c)) := by
  by_cases hr : (isHighRiskAction sc && cfg.confirmHighRiskActions) = true
  · have hc : sc.confirmed = true := by
      rw [hr] at hgate
      simpa using hgate
    rw [Bool.and_eq_true] at hr
    have htry := validateTry_pass_confirmed cfg sc log hdom hent hr.1 hr.2 hc
    have hfin := validateFinish_str_value sc
      (addAuditEntry log
        { action := "high_risk_confirmed", domain := some sc.domain,
          service := some sc.service, entity_id := sc.entity_id,
          allowed := true, violation_type := none, confirmed := some true })
      s hsid
    have hv : (validateServiceCall cfg sc log).1.allowed = true ∧
        (validateServiceCall cfg sc log).1.sanitizedEntityId =
          (if s != "" then some (sanitizeEntityId s) else none) := by
      rw [validateServiceCall, htry, hfin]
      exact ⟨rfl, rfl⟩
    exact ⟨hv.1, hv.2, sanitizeEntityId_spec s⟩
  · have hg0 : (isHighRiskAction sc && cfg.confirmHighRiskActions) = false := by
      simpa using hr
    have hg : isHighRiskAction sc = false ∨ cfg.confirmHighRiskActions = false := by
      cases hA : isHighRiskAction sc
      · exact Or.inl rfl
      · right
        rw [hA] at hg0
        simpa using hg0
    have htry := validateTry_pass_normal cfg sc log hdom hent hg
    have hfin := validateFinish_str_value sc log s hsid
    have hv : (validateServiceCall cfg sc log).1.allowed = true ∧
        (validateServiceCall cfg sc log).1.sanitizedEntityId =
          (if s != "" then some (sanitizeEntityId s) else none) := by
      rw [validateServiceCall, htry, hfin]
      exact ⟨rfl, rfl⟩
    exact ⟨hv.1, hv.2, sanitizeEntityId_spec s⟩

theorem C5_witness :
    ("light" ∈ (["light"] : List String)) ∧
    (isHighRiskAction ⟨"light", "turn_on", some (.str "light.k;&itchen"), none, false⟩ &&
      false && !false) = false ∧
    (validateServiceCall ⟨["light"], [], false⟩
        ⟨"light", "turn_on", some (.str "light.k;&itchen"), none, false⟩
        []).1.allowed = true ∧
    (validateServiceCall ⟨["light"], [], false⟩
        ⟨"light", "turn_on", some (.str "light.k;&itchen"), none, false⟩
        []).1.sanitizedEntityId =
      (if "light.k;&itchen" != "" then some (sanitizeEntityId "light.k;&itchen")
       else none) ∧
    sanitizeEntityId "light.k;&itchen" = "light.kitchen" := by
  have h := C5_sanitized_target ⟨["light"], [], false⟩
    ⟨"light", "turn_on", some (.str "light.k;&itchen"), none, false⟩ []
    "light.k;&itchen" (by decide) rfl (by decide) rfl
  exact ⟨by decide, by decide, h.1, h.2.1, by decide⟩

/-- C9 counterexample: `getAuditLog log 0` is JS `slice(-0)`, which is
`slice(0)`: the whole retained log. With one entry in the log the returned
length is 1, not at most min 0 1000 = 0 as the claim requires for every
limit. -/
theorem C9_counterexample :
    (getAuditLog [⟨"service_call_validation", none, none, none, true, none, none⟩]
      0).length = 1 ∧
    ¬ ((getAuditLog
          [⟨"service_call_validation", none, none, none, true, none, none⟩]
          0).length ≤ min 0 1000) := by
  exact ⟨rfl, by decide⟩

/-- C9 amended: the audit log never exceeds its capacity of 1000 after any
insertion (hence after any sequence of insertions); for every positive limit,
getAuditLog returns a suffix of the log — insertion order, most-recent-last —
of length min limit (log length); and after capacity+1 insertions into an
empty log, the log is exactly the last 1000 entries inserted, so
getAuditLog 1000 excludes the first inserted entry and returns exactly the
last 1000 in insertion order. For limit = 0, JS slice(-0) returns the whole
retained log instead. -/
theorem C9_audit_ring (e : AuditLogEntry) (log es : List AuditLogEntry)
    (limit : Nat) :
    (addAuditEntry log e).length ≤ 1000 ∧
    (log.length ≤ 1000 → (insertAll log es).length ≤ 1000) ∧
    (1 ≤ limit →
      getAuditLog log limit <:+ log ∧
      (getAuditLog log limit).length = min limit log.length) ∧
    ((e :: es).length = 1001 →
      insertAll [] (e :: es) = es ∧
      getAuditLog (insertAll [] (e :: es)) 1000 = es) := by
  refine ⟨addAuditEntry_length_le log e, fun hlen => ?_, fun hpos => ?_, fun hcap => ?_⟩
  · rw [insertAll_eq_lastN es log hlen]
    unfold lastN
    rw [List.length_drop]
    omega
  · have h0 : ¬ (limit = 0) := by omega
    constructor
    · simp only [getAuditLog, h0, if_false]
      exact List.drop_suffix _ _
    · simp only [getAuditLog, h0, if_false]
      rw [List.length_drop]
      omega
  · have hes : es.length = 1000 := by
      simpa using hcap
    have h1 : insertAll [] (e :: es) = es := by
      rw [insertAll_eq_lastN (e :: es) [] (by simp)]
      unfold lastN
      simp [hes]
    refine ⟨h1, ?_⟩
    rw [h1]
    unfold getAuditLog
    simp [hes]

theorem C9_witness :
    (1 ≤ 2) ∧
    ((⟨"a", none, none, none, true, none, none⟩ :: List.replicate 1000
        (⟨"a", none, none, none, true, none, none⟩ : AuditLogEntry)).length = 1001) ∧
    getAuditLog [⟨"a", none, none, none, true, none, none⟩,
        ⟨"b", none, none, none, true, none, none⟩] 2 <:+
      [⟨"a", none, none, none, true, none, none⟩,
       ⟨"b", none, none, none, true, none, none⟩] ∧
    insertAll [] (⟨"a", none, none, none, true, none, none⟩ :: List.replicate 1000
        (⟨"a", none, none, none, true, none, none⟩ : AuditLogEntry)) =
      List.replicate 1000 (⟨"a", none, none, none, true, none, none⟩ : AuditLogEntry) := by
  have h := C9_audit_ring ⟨"a", none, none, none, true, none, none⟩
    [⟨"a", none, none, none, true, none, none⟩,
     ⟨"b", none, none, none, true, none, none⟩]
    (List.replicate 1000 (⟨"a", none, none, none, true, none, none⟩ : AuditLogEntry)) 2
  have hlen : (⟨"a", none, none, none, true, none, none⟩ :: List.replicate 1000
      (⟨"a", none, none, none, true, none, none⟩ : AuditLogEntry)).length = 1001 := by
    rw [List.length_cons, List.length_replicate]
  exact ⟨by decide, hlen, (h.2.2.1 (by decide)).1, (h.2.2.2 hlen).1⟩

/-- C10: validateServiceCall is total: its try body either returns a verdict
(passed through unchanged) or throws, and every thrown error is caught and
converted into a verdict with allowed = false and a reason beginning
"Validation error: "; the catch appends no audit entry — the resulting log is
exactly the log as of the throw. -/
theorem C10_validation_error_caught (cfg : SecurityConfig)
    (sc : HAServiceCallRequest) (log : List AuditLogEntry) :
    (∀ r, validateTry cfg sc log = .ok r → validateServiceCall cfg sc log = r) ∧
    (∀ msg log2, validateTry cfg sc log = .error (msg, log2) →
      validateServiceCall cfg sc log =
        ({ allowed := false
           reason := some ("Validation error: " ++ msg)
           requiresConfirmation := false
           confirmationPrompt := none
           sanitizedEntityId := none },
         log2)) := by
  constructor
  · intro r h
    simp [validateServiceCall, h]
  · intro msg log2 h
    simp [validateServiceCall, h]

theorem C10_witness :
    validateTry ⟨["switch"], [], false⟩
        ⟨"switch", "toggle", some (.list ["switch.a", "switch.b"]), none, false⟩ [] =
      .error ("entityId.replace is not a function", []) ∧
    validateServiceCall ⟨["switch"], [], false⟩
        ⟨"switch", "toggle", some (.list ["switch.a", "switch.b"]), none, false⟩ [] =
      ({ allowed := false
         reason := some ("Validation error: " ++ "entityId.replace is not a function")
         requiresConfirmation := false
         confirmationPrompt := none
         sanitizedEntityId := none },
       []) :=
  ⟨rfl,
   (C10_validation_error_caught ⟨["switch"], [], false⟩
     ⟨"switch", "toggle", some (.list ["switch.a", "switch.b"]), none, false⟩ []).2
     "entityId.replace is not a function" [] rfl⟩

end Shim
